import Mathlib

/-!
Shallow embedding of `src/divconq/paxos.py` (a basic single-decree Paxos
library) and proofs about the claims of its specification.

Modelling conventions:
* `Key` is `Nat` (the Python key is an opaque hashable; `Nat` stands in).
* `Val` is `Int` (the Python value is an opaque payload; Python 2 sorts
  tuples of them, so we pick a linearly ordered stand-in).
* Python dicts `Key -> x` are modelled as total functions into `Option`,
  or into `Nat` with `0` for "absent" where the source itself uses
  `.get(key, 0)`.
* The junction bus is not modelled; each handler is a pure function from
  its state and arguments to its next state, return value and published
  messages, exactly as the handler body computes them.  `Proposer.propose`
  interacts with an in-flight RPC handle; the environment of one call
  records what the handle would have shown at each `arrival.wait()`
  return (target counts and snapshots of `partial_results`).
-/

namespace Divconq

abbrev Key := Nat
abbrev Val := Int

/-- `(cluster_size // 2) + 1`, computed at paxos.py:132 (and the learner's
threshold `cluster_size // 2` at paxos.py:229/246 is this minus one). -/
def quorumOf (clusterSize : Nat) : Nat := clusterSize / 2 + 1

/-! ## Acceptor (paxos.py:35-93) -/

/-- The dict returned by `Acceptor._handle_promise` (paxos.py:63-74): either
`{'success': False, 'promised': n}` or `{'success': True, 'value': v}`. -/
inductive PromiseResp where
  | rejected (promised : Nat)
  | granted (value : Option (Nat × Val))
  deriving DecidableEq, Repr

/-- `r['success']` of a promise-response dict. -/
def PromiseResp.successField : PromiseResp → Bool
  | .rejected _ => false
  | .granted _ => true

/-- `r['value']` of a promise-response dict (only read when success). -/
def PromiseResp.valueField : PromiseResp → Option (Nat × Val)
  | .rejected _ => none
  | .granted v => v

/-- `r['promised']` of a promise-response dict (only read when not success). -/
def PromiseResp.promisedField : PromiseResp → Nat
  | .rejected p => p
  | .granted _ => 0

/-- Messages published on `divconq.paxos.learn` by `Acceptor._handle_accept`
(paxos.py:78-92). -/
inductive LearnMsg where
  | learn (key : Key) (num : Nat) (value : Val)
  | unlearn (key : Key) (num : Nat)
  deriving DecidableEq, Repr

/-- `Acceptor` state (paxos.py:36-41): `_promised` is read with
`.get(key, 0)`, so it is modelled with default `0` for an absent key
(the handlers only ever store positive numbers). -/
structure AcceptorState where
  promised : Key → Nat
  values : Key → Option (Nat × Val)

/-- `Acceptor.__init__`: both dicts start empty. -/
def AcceptorState.initial : AcceptorState :=
  ⟨fun _ => 0, fun _ => none⟩

/-- `Acceptor._handle_promise` (paxos.py:63-74).  The second component of the
wire response, `self._hub._ident`, is supplied by the caller as `ident`. -/
def handlePromise (s : AcceptorState) (key num : Nat) (ident : Nat) :
    AcceptorState × (PromiseResp × Nat) :=
  if s.promised key ≥ num then
    (s, (.rejected (s.promised key), ident))
  else
    (⟨fun k => if k = key then num else s.promised k, s.values⟩,
      (.granted (s.values key), ident))

/-- `Acceptor._handle_accept` (paxos.py:76-93): returns the next state, the
RPC's boolean reply, and the messages published on `divconq.paxos.learn`. -/
def handleAccept (s : AcceptorState) (key num : Nat) (value : Val) :
    AcceptorState × Bool × List LearnMsg :=
  if s.promised key > num then
    (s, false, [.unlearn key num])
  else
    (⟨s.promised, fun k => if k = key then some (num, value) else s.values k⟩,
      true, [.learn key num value])

/-- A promise or accept invocation on one acceptor, for reasoning about
arbitrary handler sequences. -/
inductive AcceptorMsg where
  | promise (key num : Nat)
  | accept (key num : Nat) (value : Val)

/-- State effect of one handler invocation (return values dropped). -/
def acceptorStep (s : AcceptorState) : AcceptorMsg → AcceptorState
  | .promise key num => (handlePromise s key num 0).1
  | .accept key num value => (handleAccept s key num value).1

/-- State after a sequence of handler invocations. -/
def acceptorRun (s : AcceptorState) (msgs : List AcceptorMsg) : AcceptorState :=
  msgs.foldl acceptorStep s

/-! ## Learner (paxos.py:186-248) -/

/-- `Learner` state (paxos.py:192-193): `_learning` maps a key to its
`(num, good, bad)` tally, `_learned` maps a key to its committed value. -/
structure LearnerState where
  learning : Key → Option (Nat × Nat × Nat)
  learned : Key → Option Val

/-- `Learner.__init__`: both dicts start empty. -/
def LearnerState.initial : LearnerState :=
  ⟨fun _ => none, fun _ => none⟩

/-- `Learner._handle_learn` (paxos.py:217-232). -/
def handleLearn (clusterSize : Nat) (s : LearnerState) (key num : Nat)
    (value : Val) : LearnerState :=
  let t := (s.learning key).getD (0, 0, 0)
  let prevNum := t.1
  if prevNum > num then
    s
  else
    let good := if prevNum < num then 0 else t.2.1
    let bad := if prevNum < num then 0 else t.2.2
    let good := good + 1
    let s1 : LearnerState :=
      ⟨fun k => if k = key then some (num, good, bad) else s.learning k,
        s.learned⟩
    if good > clusterSize / 2 then
      ⟨fun k => if k = key then none else s1.learning k,
        fun k => if k = key then some value else s1.learned k⟩
    else
      s1

/-- `Learner._handle_unlearn` (paxos.py:234-248). -/
def handleUnlearn (clusterSize : Nat) (s : LearnerState) (key num : Nat) :
    LearnerState :=
  let t := (s.learning key).getD (0, 0, 0)
  let prevNum := t.1
  if prevNum > num then
    s
  else
    let good := if prevNum < num then 0 else t.2.1
    let bad := if prevNum < num then 0 else t.2.2
    let bad := bad + 1
    let s1 : LearnerState :=
      ⟨fun k => if k = key then some (num, good, bad) else s.learning k,
        s.learned⟩
    if bad > clusterSize / 2 then
      ⟨fun k => if k = key then none else s1.learning k, s1.learned⟩
    else
      s1

/-- A learn or unlearn delivery to one learner. -/
inductive LearnerMsg where
  | learn (key num : Nat) (value : Val)
  | unlearn (key num : Nat)

/-- State effect of one learner handler invocation. -/
def learnerStep (clusterSize : Nat) (s : LearnerState) : LearnerMsg → LearnerState
  | .learn key num value => handleLearn clusterSize s key num value
  | .unlearn key num => handleUnlearn clusterSize s key num

/-- State after a sequence of learn/unlearn deliveries. -/
def learnerRun (clusterSize : Nat) (s : LearnerState) (msgs : List LearnerMsg) :
    LearnerState :=
  msgs.foldl (learnerStep clusterSize) s

/-! ## Proposer (paxos.py:96-183)

`Proposer.propose` talks to an in-flight RPC handle.  One call's
interaction with the bus is recorded in a `ProposeEnv`:

* `promiseTargetCount` / `acceptTargetCount` — the `target_count` of the
  promise and accept `send_rpc` handles;
* `promiseSnaps` — the snapshot `promise.partial_results` read after each
  `promise.arrival.wait()` return in the first loop (paxos.py:138-151),
  one list entry per wait, innermost lists being the wire responses
  `(dict, ident)`;
* `acceptIters` — one entry per `proposal.arrival.wait()` return in the
  second loop (paxos.py:171-183).  Each entry carries the snapshot of
  `promise.partial_results` at that moment together with the snapshot of
  `proposal.partial_results` (the accept RPC's boolean replies).  The
  source reads the former (paxos.py:174), never the latter; keeping both
  in the environment lets theorems talk about what the accept replies
  actually were.
-/

structure ProposeEnv where
  promiseTargetCount : Nat
  promiseSnaps : List (List (PromiseResp × Nat))
  acceptTargetCount : Nat
  acceptIters : List (List (PromiseResp × Nat) × List Bool)

/-- How one `propose` call ends.  The source either returns a bool, raises
`QuorumUnavailable`, or sits in `arrival.wait()`; `blocked` records that the
environment's arrivals ran out with the call still waiting (the waits have
no timeout, paxos.py:140/173). -/
inductive ProposeResult where
  | ok (b : Bool)
  | quorumUnavailable
  | blocked
  deriving DecidableEq, Repr

/-- Result of the promise-phase loop (paxos.py:138-151): `success` carries
`candidates`, the `r['value']` fields of the successful responses of the
deciding snapshot; `failureRejected` carries those responses' `promised`
fields; each constructor counts the `arrival.wait()` calls consumed. -/
inductive PromisePhase where
  | success (candidates : List (Option (Nat × Val))) (waits : Nat)
  | failureRejected (failures : List Nat) (waits : Nat)
  | blocked (waits : Nat)
  deriving DecidableEq, Repr

/-- The `while 1` loop at paxos.py:138-151.  Each iteration waits, then maps
the snapshot through `p[0]`, collects `candidates` from successful responses
(break on `len >= quorum`), collects `failures` otherwise (return `False` on
`len >= quorum`). -/
def promiseLoop (quorum : Nat) : List (List (PromiseResp × Nat)) → Nat →
    PromisePhase
  | [], w => .blocked w
  | snap :: rest, w =>
      let arrived := snap.map Prod.fst
      let candidates := (arrived.filter (fun r => r.successField)).map
        (fun r => r.valueField)
      if candidates.length ≥ quorum then
        .success candidates (w + 1)
      else
        let failures := (arrived.filter (fun r => !r.successField)).map
          (fun r => r.promisedField)
        if failures.length ≥ quorum then
          .failureRejected failures (w + 1)
        else
          promiseLoop quorum rest (w + 1)

/-- Python 2 tuple comparison on the `(num, value)` pairs that
`candidates.sort(reverse=True)` orders at paxos.py:155. -/
def pairLe (a b : Nat × Val) : Bool :=
  Nat.blt a.1 b.1 || (a.1 == b.1 && decide (a.2 ≤ b.2))

/-- Insert into a descending list, keeping it descending. -/
def insertDesc (x : Nat × Val) : List (Nat × Val) → List (Nat × Val)
  | [] => [x]
  | y :: ys => if pairLe y x then x :: y :: ys else y :: insertDesc x ys

/-- `candidates.sort(reverse=True)` (paxos.py:155): sort descending under
Python tuple comparison. -/
def sortDesc (l : List (Nat × Val)) : List (Nat × Val) :=
  l.foldr insertDesc []

/-- In Python, `filter(None, candidates)` (paxos.py:154) keeps the truthy
entries: it drops `None` and keeps every pair (a non-empty tuple is truthy). -/
def truthyPairs (l : List (Option (Nat × Val))) : List (Nat × Val) :=
  l.filterMap id

/-- A wire response `(dict, ident)` as tested by `filter(None, partial)` at
paxos.py:175: a two-element tuple is always truthy in Python. -/
def pyTruthyResp (_ : PromiseResp × Nat) : Bool := true

/-- paxos.py:154-157: `candidates = filter(None, candidates)`;
`candidates.sort(reverse=True)`; `if candidates: value = candidates[0][1]`
(keep the caller's value when no prior value was reported). -/
def selectValue (candidates : List (Option (Nat × Val))) (value : Val) : Val :=
  match sortDesc (truthyPairs candidates) with
  | [] => value
  | c :: _ => c.2

/-- The `while 1` loop at paxos.py:171-183.  Each iteration waits on the
accept RPC's arrival, but then reads `promise.partial_results` — the first
component of the iteration's environment entry; the accept RPC's own
replies (second component) are never read. -/
def acceptLoop (quorum : Nat) :
    List (List (PromiseResp × Nat) × List Bool) → Nat → ProposeResult × Nat
  | [], w => (.blocked, w)
  | iter :: rest, w =>
      let arrived := iter.1
      let passed := (arrived.filter pyTruthyResp).length
      if passed ≥ quorum then
        (.ok true, w + 1)
      else if arrived.length - passed ≥ quorum then
        (.ok false, w + 1)
      else
        acceptLoop quorum rest (w + 1)

/-- Everything observable about one `propose` call: its outcome, the
proposer's `_numbers` dict afterwards, the `(num, value)` arguments of the
accept-phase `send_rpc` if that send was reached, and how many
`arrival.wait()` calls completed before the outcome. -/
structure ProposeOutcome where
  result : ProposeResult
  numbers : Key → Nat
  acceptSent : Option (Nat × Val)
  waits : Nat

/-- `Proposer.propose` (paxos.py:118-183).  `numbers` is the proposer's
`_numbers` dict (`0` = key absent, matching the `if key in` increment at
paxos.py:119-122). -/
def propose (clusterSize : Nat) (numbers : Key → Nat) (key : Key) (value : Val)
    (env : ProposeEnv) : ProposeOutcome :=
  let numbers1 : Key → Nat := fun k => if k = key then numbers key + 1 else numbers k
  let num := numbers1 key
  let quorum := clusterSize / 2 + 1
  if env.promiseTargetCount < quorum then
    ⟨.quorumUnavailable, numbers1, none, 0⟩
  else
    match promiseLoop quorum env.promiseSnaps 0 with
    | .blocked w => ⟨.blocked, numbers1, none, w⟩
    | .failureRejected failures w =>
        ⟨.ok false,
          fun k => if k = key then failures.foldl Nat.max 0 else numbers1 k,
          none, w⟩
    | .success candidates w =>
        let value := selectValue candidates value
        if env.acceptTargetCount < quorum then
          ⟨.quorumUnavailable, numbers1, some (num, value), w⟩
        else
          let r := acceptLoop quorum env.acceptIters w
          ⟨r.1, numbers1, some (num, value), r.2⟩

/-! ## Server (paxos.py:251-288)

A Python instance attribute can be: never assigned (reading it raises
`AttributeError`), assigned `None`, or assigned a role object.  `Slot`
models exactly these three possibilities; the role object itself is
reduced to `Unit`, since only presence matters to `Server.start`. -/

inductive Slot where
  | unset
  | assigned (role : Option Unit)
  deriving DecidableEq, Repr

/-- The three role attributes of a `Server` instance. -/
structure ServerAttrs where
  proposerAttr : Slot
  acceptorAttr : Slot
  learnerAttr : Slot
  deriving DecidableEq, Repr

/-- `Server.__init__` (paxos.py:252-276): `none` is the `ValueError` on an
out-of-range `group_id`; otherwise the three `if` statements run in order.
Note the `acceptor` else-branch assigns `self._proposer` (paxos.py:271),
exactly as the source does. -/
def serverInit (groupId : Int) (proposer acceptor learner : Bool) :
    Option ServerAttrs :=
  if groupId ≥ 2 ^ 64 ∨ groupId < 0 then
    none
  else
    let s0 : ServerAttrs := ⟨.unset, .unset, .unset⟩
    let s1 := if proposer then
        { s0 with proposerAttr := .assigned (some ()) }
      else
        { s0 with proposerAttr := .assigned none }
    let s2 := if acceptor then
        { s1 with acceptorAttr := .assigned (some ()) }
      else
        { s1 with proposerAttr := .assigned none }
    let s3 := if learner then
        { s2 with learnerAttr := .assigned (some ()) }
      else
        { s2 with learnerAttr := .assigned none }
    some s3

/-- What one (first) call of `Server.start` does: which roles' `start` it
delegated to, or the `AttributeError` from reading a never-assigned
attribute. -/
inductive StartResult where
  | started (proposer acceptor learner : Bool)
  | attributeError
  deriving DecidableEq, Repr

/-- `Server.start` (paxos.py:278-287), on the first call (`_started` is
false): evaluates `if self._proposer`, `if self._acceptor`,
`if self._learner` in order, delegating to each truthy role's `start`. -/
def serverStart (s : ServerAttrs) : StartResult :=
  match s.proposerAttr with
  | .unset => .attributeError
  | .assigned p =>
    match s.acceptorAttr with
    | .unset => .attributeError
    | .assigned a =>
      match s.learnerAttr with
      | .unset => .attributeError
      | .assigned l => .started p.isSome a.isSome l.isSome

/-! ## A concrete environment for the accept-phase waiter

Cluster of 3 (quorum 2).  The promise phase sees all three acceptors grant;
every reply to the accept RPC is `false` (reachable when a competing
proposer's higher-numbered promise reaches each acceptor between this
call's promise and accept deliveries).  The accept loop's iteration shows
the promise RPC's three arrived responses next to the accept RPC's three
`false` replies. -/

def c2env : ProposeEnv :=
  ⟨3,
    [[(.granted none, 1), (.granted none, 2), (.granted none, 3)]],
    3,
    [([(.granted none, 1), (.granted none, 2), (.granted none, 3)],
      [false, false, false])]⟩

/-! ## A concrete schedule with two learners committing different values

Cluster size 3, acceptors with idents 1, 2, 3, one key `0`.  Proposer P1
proposes value `10`, proposer P2 proposes value `20`.  Every message
delivered below is the literal output of the handler call that produced
it; the only liberties the schedule takes are ones the bus model allows:
a publish is delivered twice (at-least-once delivery), and some RPC
responses arrive after the waiter has already observed a quorum of
partial results. -/

/-- P1's `promise(0, 1)` at acceptor 1. -/
def c1A1p : AcceptorState × (PromiseResp × Nat) :=
  handlePromise AcceptorState.initial 0 1 1

/-- P1's `promise(0, 1)` at acceptor 2. -/
def c1A2p : AcceptorState × (PromiseResp × Nat) :=
  handlePromise AcceptorState.initial 0 1 2

/-- P1's `promise(0, 1)` at acceptor 3. -/
def c1A3p : AcceptorState × (PromiseResp × Nat) :=
  handlePromise AcceptorState.initial 0 1 3

/-- P1's `accept(0, 1, 10)` at acceptor 1 (the deliveries to acceptors 2
and 3 are still in flight in this schedule). -/
def c1A1acc : AcceptorState × Bool × List LearnMsg :=
  handleAccept c1A1p.1 0 1 10

/-- P1's environment: all three promise responses arrive; the accept loop
runs after acceptor 1's reply arrived, with the promise RPC's partial
results still the three promise responses. -/
def c1envA : ProposeEnv :=
  ⟨3, [[c1A1p.2, c1A2p.2, c1A3p.2]], 3,
    [([c1A1p.2, c1A2p.2, c1A3p.2], [c1A1acc.2.1])]⟩

/-- P1's `propose(0, 10)` call. -/
def c1P1 : ProposeOutcome := propose 3 (fun _ => 0) 0 10 c1envA

/-- Learner 1 receives acceptor 1's `learn(0, 1, 10)` publish twice
(at-least-once delivery duplicates it). -/
def c1L1 : LearnerState :=
  learnerRun 3 LearnerState.initial [.learn 0 1 10, .learn 0 1 10]

/-- P2's first `promise(0, 1)` at acceptor 1 (after its accept). -/
def c1A1q : AcceptorState × (PromiseResp × Nat) := handlePromise c1A1acc.1 0 1 1

/-- P2's first `promise(0, 1)` at acceptor 2. -/
def c1A2q : AcceptorState × (PromiseResp × Nat) := handlePromise c1A2p.1 0 1 2

/-- P2's first `promise(0, 1)` at acceptor 3. -/
def c1A3q : AcceptorState × (PromiseResp × Nat) := handlePromise c1A3p.1 0 1 3

/-- P2's first call: all three rejections arrive. -/
def c1envB1 : ProposeEnv := ⟨3, [[c1A1q.2, c1A2q.2, c1A3q.2]], 3, []⟩

/-- P2's first `propose(0, 20)` call (rejected). -/
def c1P2a : ProposeOutcome := propose 3 (fun _ => 0) 0 20 c1envB1

/-- P2's second `promise(0, 2)` at acceptor 1: grants, reporting the prior
accepted pair `(1, 10)` — but this response arrives late. -/
def c1A1r : AcceptorState × (PromiseResp × Nat) := handlePromise c1A1q.1 0 2 1

/-- P2's second `promise(0, 2)` at acceptor 2: grants with no prior. -/
def c1A2r : AcceptorState × (PromiseResp × Nat) := handlePromise c1A2q.1 0 2 2

/-- P2's second `promise(0, 2)` at acceptor 3: grants with no prior. -/
def c1A3r : AcceptorState × (PromiseResp × Nat) := handlePromise c1A3q.1 0 2 3

/-- P2's `accept(0, 2, 20)` at acceptor 2. -/
def c1A2acc : AcceptorState × Bool × List LearnMsg := handleAccept c1A2r.1 0 2 20

/-- P2's `accept(0, 2, 20)` at acceptor 3. -/
def c1A3acc : AcceptorState × Bool × List LearnMsg := handleAccept c1A3r.1 0 2 20

/-- P2's second call's environment: the waiter breaks on the quorum
{acceptor 2, acceptor 3}; acceptor 1's granted response (which carries the
prior `(1, 10)`) has not arrived when the snapshot is taken. -/
def c1envB2 : ProposeEnv :=
  ⟨3, [[c1A2r.2, c1A3r.2]], 3,
    [([c1A2r.2, c1A3r.2], [c1A2acc.2.1, c1A3acc.2.1])]⟩

/-- P2's second `propose(0, 20)` call, with `_numbers` as P2's first call
left it. -/
def c1P2b : ProposeOutcome := propose 3 c1P2a.numbers 0 20 c1envB2

/-- Learner 2 receives the `learn(0, 2, 20)` publishes of acceptors 2
and 3. -/
def c1L2 : LearnerState :=
  learnerRun 3 LearnerState.initial [.learn 0 2 20, .learn 0 2 20]

/-! ## Lemmas about the candidate ordering and sort -/

theorem pairLe_iff (a b : Nat × Val) :
    pairLe a b = true ↔ a.1 < b.1 ∨ (a.1 = b.1 ∧ a.2 ≤ b.2) := by
  simp [pairLe, Nat.blt_eq]

theorem pairLe_refl (a : Nat × Val) : pairLe a a = true := by
  simp [pairLe_iff]

theorem pairLe_trans {a b c : Nat × Val} (hab : pairLe a b = true)
    (hbc : pairLe b c = true) : pairLe a c = true := by
  rw [pairLe_iff] at hab hbc ⊢
  rcases hab with h1 | ⟨h1, h1v⟩ <;> rcases hbc with h2 | ⟨h2, h2v⟩
  · exact Or.inl (h1.trans h2)
  · exact Or.inl (h2 ▸ h1)
  · exact Or.inl (h1 ▸ h2)
  · exact Or.inr ⟨h1.trans h2, le_trans h1v h2v⟩

theorem pairLe_of_not_pairLe {a b : Nat × Val} (h : ¬ pairLe a b = true) :
    pairLe b a = true := by
  rw [pairLe_iff] at h ⊢
  rcases Nat.lt_trichotomy a.1 b.1 with hlt | heq | hgt
  · exact absurd (Or.inl hlt) h
  · rcases le_total a.2 b.2 with hv | hv
    · exact absurd (Or.inr ⟨heq, hv⟩) h
    · exact Or.inr ⟨heq.symm, hv⟩
  · exact Or.inl hgt

theorem pairLe_fst {a b : Nat × Val} (h : pairLe a b = true) : a.1 ≤ b.1 := by
  rw [pairLe_iff] at h
  rcases h with h | ⟨h, _⟩
  · exact Nat.le_of_lt h
  · exact Nat.le_of_eq h

theorem mem_insertDesc {x y : Nat × Val} {l : List (Nat × Val)} :
    y ∈ insertDesc x l ↔ y = x ∨ y ∈ l := by
  induction l with
  | nil => simp [insertDesc]
  | cons z zs ih =>
      unfold insertDesc
      split
      · simp [List.mem_cons]
      · simp only [List.mem_cons, ih]
        tauto

/-- The head of the descending sort is a maximum of the list. -/
theorem sortDesc_head_max (l : List (Nat × Val)) (hl : l ≠ []) :
    ∃ m t, sortDesc l = m :: t ∧ m ∈ l ∧ ∀ x ∈ l, pairLe x m = true := by
  induction l with
  | nil => exact absurd rfl hl
  | cons a as ih =>
      cases as with
      | nil =>
          refine ⟨a, [], rfl, List.mem_singleton.mpr rfl, ?_⟩
          intro x hx
          rw [List.mem_singleton] at hx
          exact hx ▸ pairLe_refl a
      | cons b bs =>
          obtain ⟨m, t, hsort, hmem, hmax⟩ := ih (by simp)
          have hstep : sortDesc (a :: b :: bs) = insertDesc a (m :: t) := by
            show insertDesc a (sortDesc (b :: bs)) = insertDesc a (m :: t)
            rw [hsort]
          by_cases hc : pairLe m a = true
          · refine ⟨a, m :: t, ?_, List.mem_cons_self a _, ?_⟩
            · rw [hstep]
              unfold insertDesc
              rw [if_pos hc]
            · intro x hx
              rcases List.mem_cons.mp hx with rfl | hx
              · exact pairLe_refl x
              · exact pairLe_trans (hmax x hx) hc
          · refine ⟨m, insertDesc a t, ?_, List.mem_cons_of_mem a hmem, ?_⟩
            · rw [hstep]
              unfold insertDesc
              rw [if_neg hc]
              cases t <;> rfl
            · intro x hx
              rcases List.mem_cons.mp hx with rfl | hx
              · exact pairLe_of_not_pairLe hc
              · exact hmax x hx

/-! ## Monotonicity step lemmas -/

/-- One acceptor handler invocation never lowers `promised[key]`. -/
theorem acceptorStep_promised_le (s : AcceptorState) (m : AcceptorMsg)
    (key : Key) : s.promised key ≤ (acceptorStep s m).promised key := by
  cases m with
  | promise k num =>
      show s.promised key ≤ (handlePromise s k num 0).1.promised key
      unfold handlePromise
      split
      · exact Nat.le_refl _
      · next hcond =>
          show s.promised key ≤ if key = k then num else s.promised key
          split
          · next hk =>
              subst hk
              omega
          · exact Nat.le_refl _
  | accept k num v =>
      show s.promised key ≤ (handleAccept s k num v).1.promised key
      unfold handleAccept
      split
      · exact Nat.le_refl _
      · exact Nat.le_refl _

/-- One learner handler invocation never unsets a `learned` entry. -/
theorem learnerStep_learned_isSome (clusterSize : Nat) (s : LearnerState)
    (m : LearnerMsg) (key : Key) (h : (s.learned key).isSome) :
    ((learnerStep clusterSize s m).learned key).isSome := by
  cases m with
  | learn k num v =>
      show ((handleLearn clusterSize s k num v).learned key).isSome
      simp only [handleLearn]
      repeat' split
      all_goals try exact h
      all_goals
        show (if key = k then some v else s.learned key).isSome
      all_goals by_cases hk : key = k
      all_goals first
        | (rw [if_pos hk]; rfl)
        | (rw [if_neg hk]; exact h)
  | unlearn k num =>
      show ((handleUnlearn clusterSize s k num).learned key).isSome
      simp only [handleUnlearn]
      repeat' split
      all_goals exact h

/-- `Learner._handle_unlearn` never writes to `_learned` at all. -/
theorem handleUnlearn_learned (clusterSize : Nat) (s : LearnerState)
    (key num : Nat) :
    (handleUnlearn clusterSize s key num).learned = s.learned := by
  simp only [handleUnlearn]
  repeat' split
  all_goals rfl

/-! ## Claim theorems -/

/-- C1: the spec's safety property — "for all schedules, the set of
`learned[key]` values across all learners at any time has at most one
element" — fails on the code.  In the schedule built from the `c1…`
definitions (every delivered message is the literal output of the handler
that produced it; the bus's at-least-once delivery duplicates acceptor 1's
`learn` publish to learner 1), both `propose` calls that complete return
`true`, learner 1 commits `10` and learner 2 commits `20` for the same
key `0`.  The learner tallies raw messages without de-duplicating by
acceptor, so two copies of one acceptor's `learn` count as a quorum. -/
theorem learners_disagree_under_duplicate_learn :
    c1P1.result = ProposeResult.ok true ∧ c1P1.acceptSent = some (1, 10) ∧
    c1A1acc.2.2 = [LearnMsg.learn 0 1 10] ∧
    c1L1.learned 0 = some 10 ∧
    c1P2a.result = ProposeResult.ok false ∧
    c1P2b.result = ProposeResult.ok true ∧ c1P2b.acceptSent = some (2, 20) ∧
    c1A2acc.2.2 = [LearnMsg.learn 0 2 20] ∧
    c1A3acc.2.2 = [LearnMsg.learn 0 2 20] ∧
    c1L2.learned 0 = some 20 ∧
    some (10 : Val) ≠ some (20 : Val) := by
  refine ⟨rfl, rfl, rfl, rfl, rfl, rfl, rfl, rfl, rfl, rfl, ?_⟩
  decide

/-- C2: the accept-phase waiter does not judge the accept RPC's own
responses.  At paxos.py:174 the loop reads `promise.partial_results`
(instead of `proposal.partial_results`) and at paxos.py:175 counts truthy
wire tuples, so in `c2env` — where every reply to the accept RPC is
`false` — `propose` still returns `true`. -/
theorem propose_true_despite_all_accept_rejects :
    (propose 3 (fun _ => 0) 0 7 c2env).result = ProposeResult.ok true ∧
    c2env.acceptIters.map Prod.snd = [[false, false, false]] :=
  ⟨rfl, rfl⟩

/-- C3: with `proposer=True, acceptor=False, learner=True`, the
`acceptor` else-branch at paxos.py:271 assigns `self._proposer = None`
(clobbering the just-constructed Proposer) and leaves `self._acceptor`
never assigned, so `Server.start` raises `AttributeError` instead of
starting exactly the selected roles. -/
theorem server_acceptor_flag_clobbers_proposer :
    serverInit 0 true false true =
      some ⟨Slot.assigned none, Slot.unset, Slot.assigned (some ())⟩ ∧
    serverStart ⟨Slot.assigned none, Slot.unset, Slot.assigned (some ())⟩ =
      StartResult.attributeError := by
  exact ⟨rfl, rfl⟩

/-- C8 counterexample: a single `accept(key=0, num=1, value=10)` on a fresh
acceptor stores `values[0] = (1, 10)` while `promised[0]` stays `0`
(absent), so `values[K].N ≤ promised[K]` is already false after one
invocation. -/
theorem acceptor_value_num_exceeds_promised_cex :
    (handleAccept AcceptorState.initial 0 1 10).1.values 0 = some (1, 10) ∧
    (handleAccept AcceptorState.initial 0 1 10).1.promised 0 = 0 ∧
    ¬ ((1 : Nat) ≤ 0) := by
  exact ⟨rfl, rfl, by decide⟩

/-- C8 (amended): across every sequence of promise and accept handler
invocations, `promised[key]` is monotonically non-decreasing; the claimed
relation `values[K].N ≤ promised[K]` does not hold, because the accept
handler stores `(num, value)` whenever `promised[key] ≤ num` without
raising `promised[key]` (see the counterexample). -/
theorem acceptor_promised_monotone (s : AcceptorState) (msgs : List AcceptorMsg)
    (key : Key) : s.promised key ≤ (acceptorRun s msgs).promised key := by
  induction msgs generalizing s with
  | nil => exact Nat.le_refl _
  | cons m rest ih =>
      exact le_trans (acceptorStep_promised_le s m key)
        (ih (acceptorStep s m))

/-- C9 counterexample: cluster size 3.  Two `learn(0, 1, 10)` deliveries
commit `learned[0] = 10`; two further `learn(0, 2, 20)` deliveries then
overwrite it to `20` — the learn handler never consults `learned`, so a
committed entry is not kept for the lifetime of the process. -/
theorem learner_learned_overwritten_cex :
    (learnerRun 3 LearnerState.initial
        [.learn 0 1 10, .learn 0 1 10]).learned 0 = some 10 ∧
    (learnerRun 3 LearnerState.initial
        [.learn 0 1 10, .learn 0 1 10, .learn 0 2 20, .learn 0 2 20]).learned 0 =
      some 20 := by
  exact ⟨rfl, rfl⟩

/-- C9 (amended): once `learned[key]` is set it is never removed by any
later learn/unlearn invocation, and the unlearn handler never touches
`learned` at all; but a later quorum of `learn` messages may overwrite the
entry's value (see the counterexample). -/
theorem learner_learned_never_removed (clusterSize : Nat) (s : LearnerState)
    (msgs : List LearnerMsg) (key : Key) (h : (s.learned key).isSome) :
    ((learnerRun clusterSize s msgs).learned key).isSome ∧
    ∀ (s' : LearnerState) (k n : Nat),
      (handleUnlearn clusterSize s' k n).learned = s'.learned := by
  constructor
  · induction msgs generalizing s with
    | nil => exact h
    | cons m rest ih =>
        exact ih (learnerStep clusterSize s m)
          (learnerStep_learned_isSome clusterSize s m key h)
  · exact fun s' k n => handleUnlearn_learned clusterSize s' k n

/-- Witness for C9's amended theorem at a concrete learner state. -/
theorem learner_learned_never_removed_witness :
    ((⟨fun _ => none, fun k => if k = 0 then some 10 else none⟩ :
        LearnerState).learned 0).isSome ∧
    (((learnerRun 3 ⟨fun _ => none, fun k => if k = 0 then some 10 else none⟩
        [.unlearn 0 5]).learned 0).isSome ∧
      ∀ (s' : LearnerState) (k n : Nat),
        (handleUnlearn 3 s' k n).learned = s'.learned) :=
  ⟨rfl, learner_learned_never_removed 3 _ [.unlearn 0 5] 0 rfl⟩

/-- When no successful promise response carried a prior value, the
caller's value is kept. -/
theorem selectValue_empty (candidates : List (Option (Nat × Val)))
    (value : Val) (h : truthyPairs candidates = []) :
    selectValue candidates value = value := by
  unfold selectValue
  rw [h]
  rfl

/-- When prior values were returned, the selected value comes from a
reported pair with the highest proposal number. -/
theorem selectValue_max (candidates : List (Option (Nat × Val))) (value : Val)
    (h : truthyPairs candidates ≠ []) :
    ∃ p ∈ truthyPairs candidates, selectValue candidates value = p.2 ∧
      ∀ q ∈ truthyPairs candidates, q.1 ≤ p.1 := by
  obtain ⟨m, t, hs, hm, hmax⟩ := sortDesc_head_max _ h
  refine ⟨m, hm, ?_, fun q hq => pairLe_fst (hmax q hq)⟩
  unfold selectValue
  rw [hs]

/-- C4 counterexample: cluster size 3 gives `quorum = 2`.  A snapshot with
exactly two positive responses — `quorum`, not `quorum + 1` — already makes
the promise-phase loop return success, so the loop does not require the
good votes to strictly exceed `quorum`. -/
theorem promiseLoop_succeeds_at_quorum_not_above :
    promiseLoop (quorumOf 3) [[(.granted none, 1), (.granted none, 2)]] 0 =
      PromisePhase.success [none, none] 1 ∧
    ¬ (2 > quorumOf 3) := by
  exact ⟨rfl, by decide⟩

/-- C4 (amended): the promise-phase loop (paxos.py:138-151) compares both
tallies with `>=`, not `>`: it returns success only when the number of good
votes is at least `quorum`, and rejection-failure only when the number of
bad votes is at least `quorum`. -/
theorem promiseLoop_decides_at_ge_quorum (quorum : Nat)
    (snaps : List (List (PromiseResp × Nat))) (w : Nat) :
    (∀ c w', promiseLoop quorum snaps w = PromisePhase.success c w' →
      quorum ≤ c.length) ∧
    (∀ f w', promiseLoop quorum snaps w = PromisePhase.failureRejected f w' →
      quorum ≤ f.length) := by
  induction snaps generalizing w with
  | nil =>
      constructor
      · intro c w' hc
        cases hc
      · intro f w' hf
        cases hf
  | cons snap rest ih =>
      constructor
      · intro c w' hc
        simp only [promiseLoop] at hc
        split at hc
        · next hq =>
            cases hc
            exact hq
        · split at hc
          · cases hc
          · exact (ih (w + 1)).1 c w' hc
      · intro f w' hf
        simp only [promiseLoop] at hf
        split at hf
        · cases hf
        · split at hf
          · next hq =>
              cases hf
              exact hq
          · exact (ih (w + 1)).2 f w' hf

/-- Witness for C4's amended theorem: the success branch at a concrete
snapshot with exactly two good votes. -/
theorem promiseLoop_decides_at_ge_quorum_witness :
    (2 : Nat) ≤ ([none, none] : List (Option (Nat × Val))).length :=
  (promiseLoop_decides_at_ge_quorum 2
      [[(.granted none, 1), (.granted none, 2)]] 0).1 [none, none] 1 (by decide)

/-- C5 counterexample: `propose` takes only `(key, value)` — no `overwrite`
and no `timeout` — and its waits carry no deadline (paxos.py:118,140,173).
With a full promise target count but no arrival ever returning, the call
is still sitting in `arrival.wait()`: no `OperationTimedOut` is ever
raised (the embedding's result type has no timeout outcome at all). -/
theorem propose_blocks_forever_no_timeout_cex :
    (propose 3 (fun _ => 0) 0 0 ⟨3, [], 3, []⟩).result =
      ProposeResult.blocked ∧
    (propose 3 (fun _ => 0) 0 0 ⟨3, [], 3, []⟩).waits = 0 := by
  exact ⟨rfl, rfl⟩

/-- C5 (amended): `propose(key, value) → bool` has no `overwrite` or
`timeout` parameter and computes no deadline: whenever the promise RPC
reaches at least a quorum of targets but no response ever arrives, the
call blocks indefinitely instead of raising `OperationTimedOut`. -/
theorem propose_no_deadline_blocks (clusterSize : Nat) (numbers : Key → Nat)
    (key : Key) (value : Val) (tc atc : Nat)
    (h : quorumOf clusterSize ≤ tc) :
    (propose clusterSize numbers key value ⟨tc, [], atc, []⟩).result =
      ProposeResult.blocked := by
  unfold quorumOf at h
  simp only [propose]
  rw [if_neg (Nat.not_lt.mpr h)]
  rfl

/-- Witness for C5's amended theorem at a concrete cluster. -/
theorem propose_no_deadline_blocks_witness :
    quorumOf 3 ≤ 3 ∧
    (propose 3 (fun _ => 0) 0 0 ⟨3, [], 0, []⟩).result =
      ProposeResult.blocked :=
  ⟨by decide, propose_no_deadline_blocks 3 (fun _ => 0) 0 0 3 0 (by decide)⟩

/-- C6: when the promise RPC's initial `target_count` is below
`quorum = (cluster_size // 2) + 1`, `propose` raises `QuorumUnavailable`
(paxos.py:132-136) having completed zero `arrival.wait()` calls. -/
theorem propose_quorum_unavailable_before_wait (clusterSize : Nat)
    (numbers : Key → Nat) (key : Key) (value : Val) (env : ProposeEnv)
    (h : env.promiseTargetCount < quorumOf clusterSize) :
    (propose clusterSize numbers key value env).result =
      ProposeResult.quorumUnavailable ∧
    (propose clusterSize numbers key value env).waits = 0 := by
  unfold quorumOf at h
  simp only [propose]
  rw [if_pos h]
  exact ⟨rfl, rfl⟩

/-- Witness for C6 at a concrete environment with one reachable target. -/
theorem propose_quorum_unavailable_before_wait_witness :
    (⟨1, [], 0, []⟩ : ProposeEnv).promiseTargetCount < quorumOf 3 ∧
    ((propose 3 (fun _ => 0) 0 0 ⟨1, [], 0, []⟩).result =
        ProposeResult.quorumUnavailable ∧
      (propose 3 (fun _ => 0) 0 0 ⟨1, [], 0, []⟩).waits = 0) :=
  ⟨by decide,
    propose_quorum_unavailable_before_wait 3 (fun _ => 0) 0 0 ⟨1, [], 0, []⟩
      (by decide)⟩

/-- C10: `propose` increments `numbers[key]` (paxos.py:119-122) before
sending the promise RPC; on the `QuorumUnavailable` abort the incremented
counter is left in place. -/
theorem propose_number_bump_not_rolled_back (clusterSize : Nat)
    (numbers : Key → Nat) (key : Key) (value : Val) (env : ProposeEnv)
    (h : env.promiseTargetCount < quorumOf clusterSize) :
    (propose clusterSize numbers key value env).result =
      ProposeResult.quorumUnavailable ∧
    (propose clusterSize numbers key value env).numbers key =
      numbers key + 1 := by
  unfold quorumOf at h
  simp only [propose]
  rw [if_pos h]
  exact ⟨rfl, by simp⟩

/-- Witness for C10 at a concrete environment with one reachable target. -/
theorem propose_number_bump_not_rolled_back_witness :
    (propose 3 (fun _ => 0) 5 0 ⟨1, [], 0, []⟩).result =
      ProposeResult.quorumUnavailable ∧
    (propose 3 (fun _ => 0) 5 0 ⟨1, [], 0, []⟩).numbers 5 = 0 + 1 :=
  propose_number_bump_not_rolled_back 3 (fun _ => 0) 5 0 ⟨1, [], 0, []⟩
    (by decide)

/-- C7: when the promise phase succeeds, the value sent in the accept RPC
is the caller's value if no positive response carried a prior pair, and
otherwise the `Value` of a reported `(priorN, priorValue)` pair whose
`priorN` is the highest reported.  (The source has no `overwrite`
parameter; every call behaves as the claim's `overwrite=false` case.) -/
theorem propose_adopts_highest_numbered_prior (clusterSize : Nat)
    (numbers : Key → Nat) (key : Key) (value : Val) (env : ProposeEnv)
    (candidates : List (Option (Nat × Val))) (w : Nat)
    (htc : quorumOf clusterSize ≤ env.promiseTargetCount)
    (hpl : promiseLoop (quorumOf clusterSize) env.promiseSnaps 0 =
      PromisePhase.success candidates w) :
    ∃ n v, (propose clusterSize numbers key value env).acceptSent =
        some (n, v) ∧
      (truthyPairs candidates = [] → v = value) ∧
      (truthyPairs candidates ≠ [] →
        ∃ p ∈ truthyPairs candidates, v = p.2 ∧
          ∀ q ∈ truthyPairs candidates, q.1 ≤ p.1) := by
  unfold quorumOf at htc hpl
  simp only [propose]
  rw [if_neg (Nat.not_lt.mpr htc)]
  simp only [hpl]
  by_cases hatc : env.acceptTargetCount < clusterSize / 2 + 1
  · rw [if_pos hatc]
    exact ⟨numbers key + 1, selectValue candidates value, rfl,
      fun hemp => selectValue_empty candidates value hemp,
      fun hne => selectValue_max candidates value hne⟩
  · rw [if_neg hatc]
    exact ⟨numbers key + 1, selectValue candidates value, rfl,
      fun hemp => selectValue_empty candidates value hemp,
      fun hne => selectValue_max candidates value hne⟩

/-- Witness for C7: cluster size 3, one granted response reporting the
prior pair `(1, 5)` and one reporting none; the accept phase carries
value `5`. -/
theorem propose_adopts_highest_numbered_prior_witness :
    ∃ n v,
      (propose 3 (fun _ => 0) 0 99
          ⟨3, [[(.granted (some (1, 5)), 1), (.granted none, 2)]], 3,
            []⟩).acceptSent = some (n, v) ∧
      (truthyPairs [some (1, 5), none] = [] → v = 99) ∧
      (truthyPairs [some (1, 5), none] ≠ [] →
        ∃ p ∈ truthyPairs [some (1, 5), none], v = p.2 ∧
          ∀ q ∈ truthyPairs [some (1, 5), none], q.1 ≤ p.1) :=
  propose_adopts_highest_numbered_prior 3 (fun _ => 0) 0 99
    ⟨3, [[(.granted (some (1, 5)), 1), (.granted none, 2)]], 3, []⟩
    [some (1, 5), none] 1 (by decide) (by decide)

end Divconq
